import Mathlib

/-!
Shallow embedding of the content-based recommendation engine of HSGexplorer
(src/recommender.py and the rating callback in src/app.py), together with
theorems checking the natural-language specification against it.

Modelling conventions:
- A pandas DataFrame row becomes a `Row`; only the columns the engine reads
  are modelled.  The raw ID column value is `Option Int`: `none` models a
  cell that `pd.to_numeric(..., errors := coerce)` turns into NaN, which the
  code then fills with -1.  The price column is likewise `Option ℚ` after
  numeric coercion (`none` = NaN).
- A numpy feature matrix becomes `FeatureMatrix`: a list of rows plus the
  column count (`shape[1]`).
- Machine floats are embedded as exact rationals.  Cosine similarity is used
  by the code only as a sort key, so it is embedded as a strictly monotone
  rational transform of the cosine (sign of the dot product times the squared
  cosine); this preserves the induced ordering exactly while staying
  computable in ℚ.
- `random.shuffle` becomes an explicit permutation oracle parameter; theorems
  quantify over all oracles that return permutations of their input.
- Python list.sort is stable, so the descending sort on similarity scores is
  embedded as a stable descending insertion sort.
-/

namespace HSG

/-- One activity record, restricted to the columns the engine reads:
the raw ID column (COL_ID) and the numerically coerced price column
(COL_PREIS).  `id = none` models a non-numeric / missing ID cell. -/
structure Row where
  id : Option Int
  preis : Option ℚ
deriving Repr, DecidableEq

/-- A feature matrix as produced by preprocess_features: the list of row
vectors and the column count (numpy shape[1]). -/
structure FeatureMatrix where
  rows : List (List ℚ)
  ncols : Nat
deriving Repr, DecidableEq

/-- Number of rows, numpy shape[0]. -/
def FeatureMatrix.nrows (M : FeatureMatrix) : Nat := M.rows.length

/-- Value of the ID cell after `pd.to_numeric(..).fillna(-1).astype(int)`. -/
def rowId (r : Row) : Int := r.id.getD (-1)

/-- The in-place coercion `df[COL_ID] = pd.to_numeric(df[COL_ID]).fillna(-1)`
performed by calculate_user_profile (line 191) and
get_profile_recommendations (line 271): every ID cell becomes a valid
integer, non-numeric cells become -1. -/
def coerceIds (df : List Row) : List Row :=
  df.map fun r => { r with id := some (rowId r) }

/-- Row positions of `df.index[df[COL_ID].isin(liked_ids)]`, with `i` the
position of the first row of the remaining list. -/
def likedRowIndicesAux (liked_ids : List Int) : Nat → List Row → List Nat
  | _, [] => []
  | i, r :: rest =>
    if rowId r ∈ liked_ids then
      i :: likedRowIndicesAux liked_ids (i + 1) rest
    else
      likedRowIndicesAux liked_ids (i + 1) rest

/-- Per-column arithmetic mean of a list of feature vectors,
numpy `np.mean(vecs, axis = 0)` for a matrix with `ncols` columns. -/
def colMean (ncols : Nat) (vecs : List (List ℚ)) : List ℚ :=
  (List.range ncols).map fun j =>
    ((vecs.map fun v => v.getD j 0).sum) / (vecs.length : ℚ)

/-- Embedding of recommender.calculate_user_profile (recommender.py 160-209):
resolve the liked IDs to row positions of the activity table, keep the
positions that are inside the feature matrix, and return the per-column mean
of their feature vectors; every degenerate case returns `none`.
The `disliked_ids` parameter is accepted and ignored, as in the source. -/
def calculate_user_profile (liked_ids : List Int) (disliked_ids : List Int)
    (features_matrix : Option FeatureMatrix) (df : List Row) :
    Option (List ℚ) :=
  match features_matrix with
  | none => none
  | some M =>
    if M.ncols = 0 ∨ df = [] then none
    else if liked_ids = [] then none
    else
      let liked_indices := likedRowIndicesAux liked_ids 0 (coerceIds df)
      if liked_indices = [] then none
      else
        let valid_indices := liked_indices.filter fun idx => idx < M.nrows
        if valid_indices = [] then none
        else some (colMean M.ncols (valid_indices.map fun i => M.rows.getD i []))

/-- The activity table as it stands after a call to calculate_user_profile:
the call coerces the ID column in place (line 191) once it gets past its
early-return checks, and touches nothing else. -/
def calculate_user_profile_table (liked_ids : List Int)
    (disliked_ids : List Int) (features_matrix : Option FeatureMatrix)
    (df : List Row) : List Row :=
  match features_matrix with
  | none => df
  | some M =>
    if M.ncols = 0 ∨ df = [] then df
    else if liked_ids = [] then df
    else coerceIds df

/-- Dot product, zipping the two vectors positionwise. -/
def dot (u v : List ℚ) : ℚ :=
  ((u.zip v).map fun p => p.1 * p.2).sum

/-- Sort key embedding sklearn cosine_similarity: sign of the dot product
times the squared cosine, i.e. sign(d) * d^2 / (|u|^2 * |v|^2), and 0 when a
vector has norm 0 (the sklearn convention).  The map x to sign(x) * x^2 is
strictly monotone on the cosine range [-1, 1], so sorting by this key gives
exactly the order the source obtains by sorting on the cosine itself. -/
def cosKey (u v : List ℚ) : ℚ :=
  let d := dot u v
  let uu := dot u u
  let vv := dot v v
  if uu = 0 ∨ vv = 0 then 0
  else if d < 0 then -(d * d) / (uu * vv) else (d * d) / (uu * vv)

/-- Stable descending insertion: place `x` before the first element whose key
is less than or equal to the key of `x`. -/
def insertByKeyDesc {α : Type} (key : α → ℚ) (x : α) : List α → List α
  | [] => [x]
  | y :: ys =>
    if key y ≤ key x then x :: y :: ys
    else y :: insertByKeyDesc key x ys

/-- Stable descending sort by a rational key, embedding the stable
`list.sort(key = .., reverse = True)` of Python. -/
def sortByKeyDesc {α : Type} (key : α → ℚ) : List α → List α
  | [] => []
  | x :: xs => insertByKeyDesc key x (sortByKeyDesc key xs)

/-- The list `sim_scores_with_indices` after sorting: every matrix row index
paired with its similarity key, ordered by descending similarity
(recommender.py 249-259). -/
def rankedSim (profile : List ℚ) (M : FeatureMatrix) : List (Nat × ℚ) :=
  sortByKeyDesc (fun p => p.2)
    ((M.rows.enum).map fun p => (p.1, cosKey profile p.2))

/-- The collection loop of recommender.py 273-284: walk the sorted score
list, stop once `target` IDs are collected; a row position outside the table
raises IndexError in the source, which the surrounding except swallows,
abandoning the loop with the IDs collected so far (modelled by returning the
accumulator). -/
def collectProfile (dfc : List Row) (rated_ids : List Int) (target : Nat) :
    List (Nat × ℚ) → List Int → List Int
  | [], acc => acc
  | (idx, _) :: rest, acc =>
    if target ≤ acc.length then acc
    else
      match dfc[idx]? with
      | none => acc
      | some row =>
        let aid := rowId row
        if aid ≠ -1 ∧ aid ∉ rated_ids then
          collectProfile dfc rated_ids target rest (acc ++ [aid])
        else
          collectProfile dfc rated_ids target rest acc

/-- The profile-based IDs of recommender.py 261-284: the most similar,
valid, not yet rated activities, at most `target` of them. -/
def profile_based_ids (profile : List ℚ) (M : FeatureMatrix) (df : List Row)
    (rated_ids : List Int) (target : Nat) : List Int :=
  collectProfile (coerceIds df) rated_ids target (rankedSim profile M) []

/-- First-occurrence deduplication, pandas `Series.unique` semantics. -/
def uniqueFirstAux (seen : List Int) : List Int → List Int
  | [] => []
  | a :: l =>
    if a ∈ seen then uniqueFirstAux seen l
    else a :: uniqueFirstAux (seen ++ [a]) l

/-- Unique IDs of the table in first-occurrence order,
`df[COL_ID].dropna().unique().tolist()` on the coerced column. -/
def uniqueFirst (l : List Int) : List Int := uniqueFirstAux [] l

/-- The exploration candidates of recommender.py 301-313: unique table IDs
that are valid, not rated, and not already picked by the ranker. -/
def candidate_exploration_ids (df : List Row) (rated_ids : List Int)
    (pb : List Int) : List Int :=
  (uniqueFirst ((coerceIds df).map rowId)).filter fun v =>
    decide (v ≠ -1 ∧ v ∉ rated_ids ∧ v ∉ pb)

/-- Embedding of recommender.get_profile_recommendations
(recommender.py 212-328).  `shufCand` and `shufFinal` are the two
`random.shuffle` calls (lines 316 and 325), passed as explicit permutation
oracles.  `n` is the requested total, `num_exploration_suggestions` the
count-based exploration budget. -/
def get_profile_recommendations (shufCand shufFinal : List Int → List Int)
    (user_profile : Option (List ℚ))
    (features_matrix : Option FeatureMatrix) (df : List Row)
    (rated_ids : List Int) (n : Nat)
    (num_exploration_suggestions : Nat) : List Int :=
  match user_profile, features_matrix with
  | some profile, some M =>
    if M.nrows = 0 ∨ M.ncols = 0 ∨ df = [] then []
    else
      let pb := profile_based_ids profile M df rated_ids
        (n - num_exploration_suggestions)
      let explNeeded := n - pb.length
      let exploration_ids :=
        if 0 < explNeeded ∧ df ≠ [] then
          (shufCand (candidate_exploration_ids df rated_ids pb)).take explNeeded
        else []
      (shufFinal (pb ++ exploration_ids)).take n
  | _, _ => []

/-- The activity table as it stands after a call to
get_profile_recommendations: past the early return of line 240, line 271
coerces the ID column in place; nothing else is written. -/
def get_profile_recommendations_table (user_profile : Option (List ℚ))
    (features_matrix : Option FeatureMatrix) (df : List Row) : List Row :=
  match user_profile, features_matrix with
  | some _, some M =>
    if M.nrows = 0 ∨ M.ncols = 0 ∨ df = [] then df
    else coerceIds df
  | _, _ => df

/-- The per-card suggestion total of app.update_recommendations
(app.py line 219). -/
def target_total_suggestions_for_card : Nat := 5

/-- The adaptive exploration budget of app.update_recommendations
(app.py 216-234): how many of the requested slots are reserved for
exploration, as a function of the number of likes. -/
def adaptive_num_expl_suggestions (num_likes : Nat) : Nat :=
  if num_likes = 0 then min 3 target_total_suggestions_for_card
  else if num_likes = 1 then min 2 target_total_suggestions_for_card
  else if num_likes = 2 then min 1 target_total_suggestions_for_card
  else 0

/-- The per-session rating state: the liked and disliked ID lists kept in
the session state of app.py. -/
structure RatingState where
  liked : List Int
  disliked : List Int
deriving Repr, DecidableEq

/-- The rating-event update of app.update_recommendations (app.py 164-194):
the sentinel ID -1 is ignored; a +1 rating appends the ID to the liked list
(if absent) and removes it from the disliked list; a -1 rating does the
symmetric update; other ratings change nothing. -/
def update_rating_state (s : RatingState) (activity_id : Int)
    (rating : Int) : RatingState :=
  if activity_id = -1 then s
  else if rating = 1 then
    { liked :=
        if activity_id ∈ s.liked then s.liked
        else s.liked ++ [activity_id],
      disliked := s.disliked.erase activity_id }
  else if rating = -1 then
    { liked := s.liked.erase activity_id,
      disliked :=
        if activity_id ∈ s.disliked then s.disliked
        else s.disliked ++ [activity_id] }
  else s

/-- The session starts with empty rating lists. -/
def initial_rating_state : RatingState := ⟨[], []⟩

/-- State reached from the empty session state by a sequence of rating
events `(activity_id, rating)`. -/
def run_rating_events (events : List (Int × Int)) : RatingState :=
  events.foldl (fun s e => update_rating_state s e.1 e.2)
    initial_rating_state

/-- Python set equality of the two-element literal sets, as used for the
special-cased category pairs of generate_profile_label (the literal pairs
are two distinct strings, so set equality is this disjunction). -/
def pySetPair (a b x y : String) : Prop :=
  (a = x ∧ b = y) ∨ (a = y ∧ b = x)

instance (a b x y : String) : Decidable (pySetPair a b x y) := by
  unfold pySetPair
  infer_instance

/-- The final label assembly of recommender.py 378-379: join, strip, and
return `None` for an empty result. -/
def finishLabel (s : String) : Option String :=
  let t := s.trim
  if t = "" then none else some t

/-- The `sort_values(ascending = False)` over the category counts
(determinized as a stable descending sort; the claims do not depend on the
tie order of the unstable pandas quicksort). -/
def sortScoresDesc (scores : List (String × Nat)) : List (String × Nat) :=
  sortByKeyDesc (fun p => (p.2 : ℚ)) scores

/-- Embedding of recommender.generate_profile_label (recommender.py
356-382).  The input models the category-count Series of
calculate_preference_scores (`none` = no data). -/
def generate_profile_label
    (preference_scores : Option (List (String × Nat))) : Option String :=
  match preference_scores with
  | none => none
  | some scores =>
    if scores = [] then none
    else
      match (sortScoresDesc scores).take 2 with
      | [] => none
      | [(a1, _)] => finishLabel (a1 ++ "-Fan")
      | (a1, s1) :: (a2, s2) :: _ =>
        if pySetPair a1 a2 "Sport" "Action" then
          finishLabel "Sport & Action Typ"
        else if pySetPair a1 a2 "Natur" "Wandern" then
          finishLabel "Naturfreund"
        else if pySetPair a1 a2 "Genuss" "Shopping" then
          finishLabel "Genuss & Shopping Typ"
        else if (s2 : ℚ) * 1.5 < (s1 : ℚ) then
          finishLabel (a1 ++ "-Fan (Interesse: " ++ a2 ++ ")")
        else
          finishLabel (a1 ++ " & " ++ a2 ++ " Typ")

/-- Whether a row is one of the liked activities:
`df[COL_ID].isin(valid_liked_ids)` on the raw ID column (a non-numeric ID
cell never matches an integer list). -/
def likedRowMatch (liked_ids : List Int) (r : Row) : Bool :=
  match r.id with
  | some v => decide (v ∈ liked_ids)
  | none => false

/-- Embedding of recommender.get_liked_prices (recommender.py 415-441):
collect the coerced prices of the liked rows, keep all numeric ones when
`include_free` is true and only the strictly positive ones otherwise, and
return `none` instead of any empty list. -/
def get_liked_prices (liked_ids : List Int) (df_all_activities : List Row)
    (include_free : Bool) : Option (List ℚ) :=
  if liked_ids = [] ∨ df_all_activities = [] then none
  else
    let liked_activities :=
      df_all_activities.filter (likedRowMatch liked_ids)
    if liked_activities = [] then none
    else
      let prices_numeric := liked_activities.map fun r => r.preis
      let valid_prices :=
        if include_free then prices_numeric.filterMap id
        else (prices_numeric.filterMap id).filter fun q => decide (0 < q)
      if valid_prices = [] then none
      else some valid_prices

/-! ## Helper lemmas -/

/-- Coercing the ID column is the identity when every ID cell already holds
an integer. -/
lemma coerceIds_eq_self (df : List Row)
    (h : ∀ r ∈ df, ∃ v, r.id = some v) : coerceIds df = df := by
  induction df with
  | nil => rfl
  | cons r rest ih =>
    obtain ⟨v, hv⟩ := h r (List.mem_cons_self r rest)
    have hrest := ih fun x hx => h x (List.mem_cons_of_mem r hx)
    simp only [coerceIds, List.map_cons] at hrest ⊢
    rw [show ({ r with id := some (rowId r) } : Row) = r by
      cases r with
      | mk i p => simp only [rowId] at hv ⊢; rw [hv]; rfl]
    rw [hrest]

/-- Well-formedness of the session rating state: both lists are
duplicate-free and no ID is in both. -/
def RatingStateWF (s : RatingState) : Prop :=
  s.liked.Nodup ∧ s.disliked.Nodup ∧ ∀ x, x ∈ s.liked → x ∉ s.disliked

lemma ratingStateWF_init : RatingStateWF initial_rating_state := by
  refine ⟨List.nodup_nil, List.nodup_nil, ?_⟩
  intro x hx
  simp [initial_rating_state] at hx

lemma ratingStateWF_update (s : RatingState) (aid rating : Int)
    (h : RatingStateWF s) :
    RatingStateWF (update_rating_state s aid rating) := by
  obtain ⟨hl, hd, hdisj⟩ := h
  unfold update_rating_state
  by_cases h1 : aid = -1
  · rw [if_pos h1]
    exact ⟨hl, hd, hdisj⟩
  rw [if_neg h1]
  by_cases h2 : rating = 1
  · rw [if_pos h2]
    refine ⟨?_, hd.erase aid, ?_⟩
    · by_cases hm : aid ∈ s.liked
      · rw [if_pos hm]
        exact hl
      · rw [if_neg hm]
        simp [List.nodup_append, hl, hm]
    · intro x hx hxe
      have hxd : x ∈ s.disliked := List.mem_of_mem_erase hxe
      by_cases hxa : x = aid
      · subst hxa
        exact hd.not_mem_erase hxe
      · have hxl : x ∈ s.liked := by
          by_cases hm : aid ∈ s.liked
          · rw [if_pos hm] at hx
            exact hx
          · rw [if_neg hm] at hx
            rcases List.mem_append.mp hx with hx | hx
            · exact hx
            · exact absurd (List.mem_singleton.mp hx) hxa
        exact hdisj x hxl hxd
  rw [if_neg h2]
  by_cases h3 : rating = -1
  · rw [if_pos h3]
    refine ⟨hl.erase aid, ?_, ?_⟩
    · by_cases hm : aid ∈ s.disliked
      · rw [if_pos hm]
        exact hd
      · rw [if_neg hm]
        simp [List.nodup_append, hd, hm]
    · intro x hx hxd
      have hxl : x ∈ s.liked := List.mem_of_mem_erase hx
      by_cases hxa : x = aid
      · subst hxa
        exact hl.not_mem_erase hx
      · have hxd2 : x ∈ s.disliked := by
          by_cases hm : aid ∈ s.disliked
          · rw [if_pos hm] at hxd
            exact hxd
          · rw [if_neg hm] at hxd
            rcases List.mem_append.mp hxd with hxd | hxd
            · exact hxd
            · exact absurd (List.mem_singleton.mp hxd) hxa
        exact hdisj x hxl hxd2
  · rw [if_neg h3]
    exact ⟨hl, hd, hdisj⟩

lemma ratingStateWF_run (events : List (Int × Int)) :
    RatingStateWF (run_rating_events events) := by
  have hgen : ∀ (l : List (Int × Int)) (s : RatingState), RatingStateWF s →
      RatingStateWF (l.foldl (fun s e => update_rating_state s e.1 e.2) s) := by
    intro l
    induction l with
    | nil => exact fun s hs => hs
    | cons e l ih =>
      intro s hs
      exact ih _ (ratingStateWF_update s e.1 e.2 hs)
  exact hgen events initial_rating_state ratingStateWF_init

/-- With only zero prices in sight, the positive-price filter is empty. -/
lemma zero_prices_filter (rows : List Row)
    (h : ∀ r ∈ rows, r.preis = some 0) :
    ((rows.map fun r => r.preis).filterMap id).filter
      (fun q => decide (0 < q)) = [] := by
  induction rows with
  | nil => rfl
  | cons r rest ih =>
    have hr := h r (List.mem_cons_self r rest)
    have ih2 := ih fun x hx => h x (List.mem_cons_of_mem r hx)
    simp only [List.map_cons, List.filterMap_cons, hr, id_eq]
    rw [List.filter_cons, if_neg (by simp)]
    exact ih2

/-- Every ID produced by the collection loop was either already in the
accumulator or is a valid unrated ID. -/
lemma mem_collectProfile (dfc : List Row) (rated_ids : List Int)
    (target : Nat) :
    ∀ (sorted : List (Nat × ℚ)) (acc : List Int) (x : Int),
      x ∈ collectProfile dfc rated_ids target sorted acc →
      x ∈ acc ∨ (x ≠ -1 ∧ x ∉ rated_ids) := by
  intro sorted
  induction sorted with
  | nil =>
    intro acc x hx
    exact Or.inl hx
  | cons p rest ih =>
    intro acc x hx
    obtain ⟨idx, score⟩ := p
    simp only [collectProfile] at hx
    by_cases ht : target ≤ acc.length
    · rw [if_pos ht] at hx
      exact Or.inl hx
    rw [if_neg ht] at hx
    cases hrow : dfc[idx]? with
    | none =>
      rw [hrow] at hx
      exact Or.inl hx
    | some row =>
      rw [hrow] at hx
      dsimp only at hx
      by_cases hc : rowId row ≠ -1 ∧ rowId row ∉ rated_ids
      · rw [if_pos hc] at hx
        rcases ih _ x hx with h | h
        · rcases List.mem_append.mp h with h | h
          · exact Or.inl h
          · rw [List.mem_singleton] at h
            subst h
            exact Or.inr hc
        · exact Or.inr h
      · rw [if_neg hc] at hx
        exact ih _ x hx

/-- Every exploration candidate is a valid ID that is neither rated nor
already picked by the ranker. -/
lemma mem_candidate_exploration_ids (df : List Row) (rated_ids pb : List Int)
    (x : Int) (hx : x ∈ candidate_exploration_ids df rated_ids pb) :
    x ≠ -1 ∧ x ∉ rated_ids ∧ x ∉ pb := by
  unfold candidate_exploration_ids at hx
  exact of_decide_eq_true (List.mem_filter.mp hx).2

/-- Indices produced by the resolution of liked IDs never go below the
running position counter. -/
lemma mem_likedRowIndicesAux_ge (liked : List Int) :
    ∀ (df : List Row) (i j : Nat),
      j ∈ likedRowIndicesAux liked i df → i ≤ j := by
  intro df
  induction df with
  | nil =>
    intro i j hj
    simp [likedRowIndicesAux] at hj
  | cons r rest ih =>
    intro i j hj
    simp only [likedRowIndicesAux] at hj
    by_cases hr : rowId r ∈ liked
    · rw [if_pos hr] at hj
      rcases List.mem_cons.mp hj with h | h
      · subst h
        exact Nat.le_refl j
      · exact Nat.le_of_succ_le (ih (i + 1) j h)
    · rw [if_neg hr] at hj
      exact Nat.le_of_succ_le (ih (i + 1) j hj)

/-- The liked row positions resolved against the table, restricted to the
feature matrix and mapped to feature vectors, are exactly the vectors of
the liked rows of the zipped table. -/
lemma likedRowIndices_zip (liked : List Int) (Mrows : List (List ℚ)) :
    ∀ (df : List Row) (i : Nat),
      ((likedRowIndicesAux liked i df).filter
          (fun idx => decide (idx < Mrows.length))).map
        (fun j => Mrows.getD j []) =
      ((df.zip (Mrows.drop i)).filter
          (fun p => decide (rowId p.1 ∈ liked))).map Prod.snd := by
  intro df
  induction df with
  | nil =>
    intro i
    simp [likedRowIndicesAux]
  | cons r rest ih =>
    intro i
    by_cases hi : i < Mrows.length
    · have hdrop : Mrows.drop i = Mrows.getD i [] :: Mrows.drop (i + 1) := by
        rw [List.getD_eq_getElem Mrows [] hi]
        exact List.drop_eq_getElem_cons hi
      rw [hdrop]
      simp only [likedRowIndicesAux]
      by_cases hr : rowId r ∈ liked
      · rw [if_pos hr, List.zip_cons_cons, List.filter_cons, List.filter_cons,
          if_pos (decide_eq_true hi), if_pos (decide_eq_true hr)]
        simp only [List.map_cons]
        rw [ih (i + 1)]
      · rw [if_neg hr, List.zip_cons_cons, List.filter_cons,
          if_neg (by simp [hr])]
        exact ih (i + 1)
    · have hdrop : Mrows.drop i = [] :=
        List.drop_eq_nil_of_le (Nat.le_of_not_lt hi)
      rw [hdrop, List.zip_nil_right]
      simp only [List.filter_nil, List.map_nil]
      have hfil : (likedRowIndicesAux liked i (r :: rest)).filter
          (fun idx => decide (idx < Mrows.length)) = [] := by
        rw [List.filter_eq_nil_iff]
        intro j hj
        have hij := mem_likedRowIndicesAux_ge liked (r :: rest) i j hj
        simp only [decide_eq_true_eq]
        omega
      rw [hfil]
      rfl

/-- Resolving liked IDs commutes with the in-place ID coercion, because the
coercion does not change the value the resolution compares against. -/
lemma likedRowIndicesAux_coerce (liked : List Int) :
    ∀ (df : List Row) (i : Nat),
      likedRowIndicesAux liked i (coerceIds df) =
        likedRowIndicesAux liked i df := by
  intro df
  induction df with
  | nil =>
    intro i
    rfl
  | cons r rest ih =>
    intro i
    show likedRowIndicesAux liked i
      ({ r with id := some (rowId r) } :: coerceIds rest) = _
    simp only [likedRowIndicesAux]
    have hcond : rowId { r with id := some (rowId r) } = rowId r := rfl
    rw [hcond, ih]

/-! ## Claim theorems -/

/-- C2: for every call to get_profile_recommendations with requested count
`n`, the returned ID list has length at most `n`. -/
theorem recommend_length_le (shufCand shufFinal : List Int → List Int)
    (user_profile : Option (List ℚ)) (features_matrix : Option FeatureMatrix)
    (df : List Row) (rated_ids : List Int) (n e : Nat) :
    (get_profile_recommendations shufCand shufFinal user_profile
      features_matrix df rated_ids n e).length ≤ n := by
  rcases user_profile with _ | profile
  · simp [get_profile_recommendations]
  rcases features_matrix with _ | M
  · simp [get_profile_recommendations]
  unfold get_profile_recommendations
  dsimp only
  split
  · simp
  · exact List.length_take_le n _

/-- C1: no ID returned by get_profile_recommendations is a member of the
rated-ID set, whatever the two shuffles do (quantified over all permutation
oracles); this covers both the profile-based and the exploration entries. -/
theorem recommend_excludes_rated (shufCand shufFinal : List Int → List Int)
    (hC : ∀ l, (shufCand l).Perm l) (hF : ∀ l, (shufFinal l).Perm l)
    (user_profile : Option (List ℚ)) (features_matrix : Option FeatureMatrix)
    (df : List Row) (rated_ids : List Int) (n e : Nat) :
    List.Disjoint (get_profile_recommendations shufCand shufFinal
      user_profile features_matrix df rated_ids n e) rated_ids := by
  rcases user_profile with _ | profile
  · rcases features_matrix with _ | M <;>
      exact fun x hx => absurd hx (List.not_mem_nil x)
  rcases features_matrix with _ | M
  · exact fun x hx => absurd hx (List.not_mem_nil x)
  intro x hx hxr
  simp only [get_profile_recommendations] at hx
  by_cases hcond : M.nrows = 0 ∨ M.ncols = 0 ∨ df = []
  · rw [if_pos hcond] at hx
    exact List.not_mem_nil x hx
  rw [if_neg hcond] at hx
  have hx2 := ((hF _).mem_iff).mp (List.mem_of_mem_take hx)
  rcases List.mem_append.mp hx2 with h | h
  · rcases mem_collectProfile _ _ _ _ _ _ h with h2 | h2
    · exact List.not_mem_nil x h2
    · exact h2.2 hxr
  · by_cases hexp : 0 < n -
        (profile_based_ids profile M df rated_ids (n - e)).length ∧ df ≠ []
    · rw [if_pos hexp] at h
      have h4 := ((hC _).mem_iff).mp (List.mem_of_mem_take h)
      exact (mem_candidate_exploration_ids _ _ _ _ h4).2.1 hxr
    · rw [if_neg hexp] at h
      exact List.not_mem_nil x h

/-- C1 witness: a concrete call with rated IDs 3 and 9 returns a list
disjoint from them. -/
theorem recommend_excludes_rated_witness :
    List.Disjoint
      (get_profile_recommendations id id (some [1])
        (some ⟨[[1], [1], [1], [1], [1], [1]], 1⟩)
        [⟨some 1, none⟩, ⟨some 2, none⟩, ⟨some 3, none⟩,
         ⟨some 4, none⟩, ⟨some 5, none⟩, ⟨some 6, none⟩] [3, 9] 5 2)
      [3, 9] :=
  recommend_excludes_rated id id (fun l => List.Perm.refl l)
    (fun l => List.Perm.refl l) (some [1])
    (some ⟨[[1], [1], [1], [1], [1], [1]], 1⟩)
    [⟨some 1, none⟩, ⟨some 2, none⟩, ⟨some 3, none⟩,
     ⟨some 4, none⟩, ⟨some 5, none⟩, ⟨some 6, none⟩] [3, 9] 5 2

/-- C5 counterexample: the claimed fixed-rate policy injects at most one
uniformly random ID per call, and only with probability exploration_rate.
The code has no probability parameter at all: its only exploration
mechanism is the count parameter num_exploration_suggestions.  At this
concrete input (six activities with pairwise distinct similarities to the
profile, no rated IDs, n = 5 and exploration count 2, the configuration
app.py uses after the first like) the returned list deterministically
contains exactly two IDs outside the three similarity-ranked picks
[1, 2, 3] - the count-based behaviour, incompatible with replacing at most
one least-similar slot at rate 0.15. -/
theorem fixed_rate_policy_counterexample :
    ((get_profile_recommendations id id (some [1, 0])
      (some ⟨[[1, 0], [2, 1], [1, 1], [1, 2], [0, 1], [0, 2]], 2⟩)
      [⟨some 1, none⟩, ⟨some 2, none⟩, ⟨some 3, none⟩,
       ⟨some 4, none⟩, ⟨some 5, none⟩, ⟨some 6, none⟩] [] 5 2).filter
        (fun v => decide (v ∉ [(1 : Int), 2, 3]))).length = 2 := by
  norm_num [get_profile_recommendations, profile_based_ids, rankedSim, cosKey,
    dot, sortByKeyDesc, insertByKeyDesc, collectProfile, coerceIds, rowId,
    uniqueFirst, uniqueFirstAux, candidate_exploration_ids,
    FeatureMatrix.nrows, List.getElem?_cons_zero, List.getElem?_cons_succ]
  decide

/-- C5 amended: the only exploration policy in the source is count-based:
every returned ID is either a ranker pick or an exploration candidate
(an unrated, unrecommended table ID), and the number of returned IDs is
the ranker picks plus as many exploration candidates as are available, up
to the requested total n. -/
theorem exploration_policy_count_based (shufCand shufFinal : List Int → List Int)
    (hC : ∀ l, (shufCand l).Perm l) (hF : ∀ l, (shufFinal l).Perm l)
    (profile : List ℚ) (M : FeatureMatrix) (df : List Row)
    (rated_ids : List Int) (n e : Nat)
    (hM : ¬(M.nrows = 0 ∨ M.ncols = 0 ∨ df = [])) :
    (∀ x ∈ get_profile_recommendations shufCand shufFinal (some profile)
        (some M) df rated_ids n e,
      x ∈ profile_based_ids profile M df rated_ids (n - e) ∨
        x ∈ candidate_exploration_ids df rated_ids
          (profile_based_ids profile M df rated_ids (n - e))) ∧
    (∀ x ∈ candidate_exploration_ids df rated_ids
        (profile_based_ids profile M df rated_ids (n - e)),
      x ∉ rated_ids ∧
        x ∉ profile_based_ids profile M df rated_ids (n - e)) ∧
    (get_profile_recommendations shufCand shufFinal (some profile) (some M)
        df rated_ids n e).length =
      min n ((profile_based_ids profile M df rated_ids (n - e)).length +
        min (n - (profile_based_ids profile M df rated_ids (n - e)).length)
          (candidate_exploration_ids df rated_ids
            (profile_based_ids profile M df rated_ids (n - e))).length) := by
  set pb := profile_based_ids profile M df rated_ids (n - e) with hpbdef
  set cand := candidate_exploration_ids df rated_ids pb with hcanddef
  have hgpr : get_profile_recommendations shufCand shufFinal (some profile)
      (some M) df rated_ids n e =
      (shufFinal (pb ++ (if 0 < n - pb.length ∧ df ≠ [] then
        (shufCand cand).take (n - pb.length) else []))).take n := by
    simp only [get_profile_recommendations]
    rw [if_neg hM]
  refine ⟨?_, ?_, ?_⟩
  · intro x hx
    rw [hgpr] at hx
    have hx2 := ((hF _).mem_iff).mp (List.mem_of_mem_take hx)
    rcases List.mem_append.mp hx2 with h | h
    · exact Or.inl h
    · by_cases hexp : 0 < n - pb.length ∧ df ≠ []
      · rw [if_pos hexp] at h
        exact Or.inr (((hC _).mem_iff).mp (List.mem_of_mem_take h))
      · rw [if_neg hexp] at h
        exact absurd h (List.not_mem_nil x)
  · intro x hx
    have h := mem_candidate_exploration_ids df rated_ids pb x hx
    exact ⟨h.2.1, h.2.2⟩
  · rw [hgpr, List.length_take, (hF _).length_eq, List.length_append]
    have hexplen : (if 0 < n - pb.length ∧ df ≠ [] then
        (shufCand cand).take (n - pb.length) else []).length =
        min (n - pb.length) cand.length := by
      by_cases hexp : 0 < n - pb.length ∧ df ≠ []
      · rw [if_pos hexp, List.length_take, (hC _).length_eq]
      · rw [if_neg hexp]
        have hdf : df ≠ [] := fun hdfe => hM (Or.inr (Or.inr hdfe))
        have hz : n - pb.length = 0 := by
          by_contra hne
          exact hexp ⟨Nat.pos_of_ne_zero hne, hdf⟩
        simp [hz]
    rw [hexplen]

/-- C5 amended witness: at the concrete six-activity input the returned
length equals the count-based formula. -/
theorem exploration_policy_count_based_witness :
    (get_profile_recommendations id id (some [1, 0])
      (some ⟨[[1, 0], [2, 1], [1, 1], [1, 2], [0, 1], [0, 2]], 2⟩)
      [⟨some 1, none⟩, ⟨some 2, none⟩, ⟨some 3, none⟩,
       ⟨some 4, none⟩, ⟨some 5, none⟩, ⟨some 6, none⟩] [] 5 2).length =
      min 5 ((profile_based_ids [1, 0]
          ⟨[[1, 0], [2, 1], [1, 1], [1, 2], [0, 1], [0, 2]], 2⟩
          [⟨some 1, none⟩, ⟨some 2, none⟩, ⟨some 3, none⟩,
           ⟨some 4, none⟩, ⟨some 5, none⟩, ⟨some 6, none⟩] [] (5 - 2)).length +
        min (5 - (profile_based_ids [1, 0]
            ⟨[[1, 0], [2, 1], [1, 1], [1, 2], [0, 1], [0, 2]], 2⟩
            [⟨some 1, none⟩, ⟨some 2, none⟩, ⟨some 3, none⟩,
             ⟨some 4, none⟩, ⟨some 5, none⟩, ⟨some 6, none⟩] [] (5 - 2)).length)
          (candidate_exploration_ids
            [⟨some 1, none⟩, ⟨some 2, none⟩, ⟨some 3, none⟩,
             ⟨some 4, none⟩, ⟨some 5, none⟩, ⟨some 6, none⟩] []
            (profile_based_ids [1, 0]
              ⟨[[1, 0], [2, 1], [1, 1], [1, 2], [0, 1], [0, 2]], 2⟩
              [⟨some 1, none⟩, ⟨some 2, none⟩, ⟨some 3, none⟩,
               ⟨some 4, none⟩, ⟨some 5, none⟩, ⟨some 6, none⟩] []
              (5 - 2))).length) :=
  (exploration_policy_count_based id id (fun l => List.Perm.refl l)
    (fun l => List.Perm.refl l) [1, 0]
    ⟨[[1, 0], [2, 1], [1, 1], [1, 2], [0, 1], [0, 2]], 2⟩
    [⟨some 1, none⟩, ⟨some 2, none⟩, ⟨some 3, none⟩,
     ⟨some 4, none⟩, ⟨some 5, none⟩, ⟨some 6, none⟩] [] 5 2
    (by decide)).2.2

/-- C3: with a non-empty liked list, an available matrix with at least one
column, a non-empty table, and at least one liked ID resolving to a row
inside the matrix, calculate_user_profile returns the per-column arithmetic
mean of the feature vectors of the liked rows (IDs that do not resolve or
fall outside the matrix are dropped, which is what the zip with the matrix
rows expresses). -/
theorem calculate_user_profile_mean (liked disliked : List Int)
    (M : FeatureMatrix) (df : List Row)
    (h1 : liked ≠ []) (h2 : M.ncols ≠ 0) (h3 : df ≠ [])
    (h4 : ((df.zip M.rows).filter
        (fun p => decide (rowId p.1 ∈ liked))).map Prod.snd ≠ []) :
    calculate_user_profile liked disliked (some M) df =
      some (colMean M.ncols (((df.zip M.rows).filter
        (fun p => decide (rowId p.1 ∈ liked))).map Prod.snd)) := by
  have hkey : ((likedRowIndicesAux liked 0 (coerceIds df)).filter
      (fun idx => decide (idx < M.nrows))).map (fun j => M.rows.getD j []) =
      ((df.zip M.rows).filter
        (fun p => decide (rowId p.1 ∈ liked))).map Prod.snd := by
    rw [likedRowIndicesAux_coerce]
    have hz := likedRowIndices_zip liked M.rows df 0
    rw [List.drop_zero] at hz
    exact hz
  simp only [calculate_user_profile]
  rw [if_neg (not_or.mpr ⟨h2, h3⟩), if_neg h1]
  have hvne : (likedRowIndicesAux liked 0 (coerceIds df)).filter
      (fun idx => decide (idx < M.nrows)) ≠ [] := by
    intro hnil
    apply h4
    rw [← hkey, hnil]
    rfl
  have hLne : likedRowIndicesAux liked 0 (coerceIds df) ≠ [] := by
    intro hnil
    apply hvne
    rw [hnil]
    rfl
  rw [if_neg hLne, if_neg hvne, hkey]

/-- C3 witness: liking the first two of three activities yields the
columnwise mean of their feature vectors. -/
theorem calculate_user_profile_mean_witness :
    calculate_user_profile [1, 2] [] (some ⟨[[1, 2], [3, 4], [5, 6]], 2⟩)
      [⟨some 1, none⟩, ⟨some 2, none⟩, ⟨some 3, none⟩] = some [2, 3] :=
  (calculate_user_profile_mean [1, 2] [] ⟨[[1, 2], [3, 4], [5, 6]], 2⟩
    [⟨some 1, none⟩, ⟨some 2, none⟩, ⟨some 3, none⟩]
    (by decide) (by decide) (by decide) (by decide)).trans
    (by
      show some (colMean 2 [[1, 2], [3, 4]]) = some [2, 3]
      norm_num [colMean, List.range_succ])

/-- C4: the adaptive exploration budget is 2 after exactly one like, 1
after exactly two likes, 0 after three or more, and is non-increasing in
the number of likes. -/
theorem adaptive_exploration_schedule :
    adaptive_num_expl_suggestions 1 = 2 ∧
    adaptive_num_expl_suggestions 2 = 1 ∧
    (∀ k, 3 ≤ k → adaptive_num_expl_suggestions k = 0) ∧
    (∀ a b, a ≤ b →
      adaptive_num_expl_suggestions b ≤ adaptive_num_expl_suggestions a) := by
  have hform : ∀ k, adaptive_num_expl_suggestions k = 3 - min k 3 := by
    intro k
    unfold adaptive_num_expl_suggestions target_total_suggestions_for_card
    rcases k with _ | _ | _ | k <;> simp
  refine ⟨by decide, by decide, ?_, ?_⟩
  · intro k hk
    rw [hform]
    omega
  · intro a b hab
    rw [hform, hform]
    omega

/-- C4 witness: the schedule is 0 at five likes, which is at most its value
at one like. -/
theorem adaptive_exploration_schedule_witness :
    adaptive_num_expl_suggestions 5 = 0 ∧
    adaptive_num_expl_suggestions 5 ≤ adaptive_num_expl_suggestions 1 :=
  ⟨adaptive_exploration_schedule.2.2.1 5 (by decide),
   adaptive_exploration_schedule.2.2.2 1 5 (by decide)⟩

/-- C6: calculate_user_profile returns none when the feature matrix is
unavailable, has zero columns, the table is empty, or the liked list is
empty; get_profile_recommendations returns the empty list when the profile
or the matrix is unavailable; with no likes the profile is none and the
recommendation list is empty. -/
theorem no_data_degradation :
    (∀ liked disliked df,
       calculate_user_profile liked disliked none df = none) ∧
    (∀ liked disliked M df, M.ncols = 0 →
       calculate_user_profile liked disliked (some M) df = none) ∧
    (∀ liked disliked m,
       calculate_user_profile liked disliked m [] = none) ∧
    (∀ disliked m df,
       calculate_user_profile [] disliked m df = none) ∧
    (∀ sC sF fm df rated n e,
       get_profile_recommendations sC sF none fm df rated n e = []) ∧
    (∀ sC sF up df rated n e,
       get_profile_recommendations sC sF up none df rated n e = []) ∧
    (∀ sC sF disliked m df rated n e,
       get_profile_recommendations sC sF
         (calculate_user_profile [] disliked m df) m df rated n e = []) := by
  have h1 : ∀ liked disliked df,
      calculate_user_profile liked disliked none df = none :=
    fun _ _ _ => rfl
  have h2 : ∀ liked disliked M df, M.ncols = 0 →
      calculate_user_profile liked disliked (some M) df = none := by
    intro liked disliked M df h
    simp [calculate_user_profile, h]
  have h3 : ∀ liked disliked m,
      calculate_user_profile liked disliked m [] = none := by
    intro liked disliked m
    rcases m with _ | M
    · rfl
    · simp [calculate_user_profile]
  have h4 : ∀ disliked m df,
      calculate_user_profile [] disliked m df = none := by
    intro disliked m df
    rcases m with _ | M
    · rfl
    · simp only [calculate_user_profile]
      by_cases hc : M.ncols = 0 ∨ df = []
      · rw [if_pos hc]
      · rw [if_neg hc]
        simp
  have h5 : ∀ sC sF fm df rated n e,
      get_profile_recommendations sC sF none fm df rated n e = [] :=
    fun _ _ _ _ _ _ _ => rfl
  have h6 : ∀ sC sF up df rated n e,
      get_profile_recommendations sC sF up none df rated n e = [] := by
    intro sC sF up df rated n e
    rcases up with _ | p <;> rfl
  refine ⟨h1, h2, h3, h4, h5, h6, ?_⟩
  intro sC sF disliked m df rated n e
  rw [h4 disliked m df]
  exact h5 sC sF m df rated n e

/-- C6 witness: a zero-column matrix yields no profile. -/
theorem no_data_degradation_witness :
    calculate_user_profile [5] [] (some ⟨[], 0⟩) [⟨some 5, none⟩] = none :=
  no_data_degradation.2.1 [5] [] ⟨[], 0⟩ [⟨some 5, none⟩] rfl

/-- C7: the liked and disliked lists are disjoint in every state reachable
by rating events from the empty initial state, and a rating event moves the
ID into the matching list and out of the other one. -/
theorem rating_state_disjoint :
    (∀ events : List (Int × Int),
       List.Disjoint (run_rating_events events).liked
         (run_rating_events events).disliked) ∧
    (∀ (s : RatingState) (aid : Int), RatingStateWF s → aid ≠ -1 →
       (aid ∈ (update_rating_state s aid 1).liked ∧
        aid ∉ (update_rating_state s aid 1).disliked) ∧
       (aid ∈ (update_rating_state s aid (-1)).disliked ∧
        aid ∉ (update_rating_state s aid (-1)).liked)) := by
  constructor
  · intro events x hx
    exact (ratingStateWF_run events).2.2 x hx
  · intro s aid hs hne
    obtain ⟨hl, hd, _⟩ := hs
    have hupd1 : update_rating_state s aid 1 =
        { liked := if aid ∈ s.liked then s.liked else s.liked ++ [aid],
          disliked := s.disliked.erase aid } := by
      simp [update_rating_state, hne]
    have hupd2 : update_rating_state s aid (-1) =
        { liked := s.liked.erase aid,
          disliked := if aid ∈ s.disliked then s.disliked
            else s.disliked ++ [aid] } := by
      simp [update_rating_state, hne]
    rw [hupd1, hupd2]
    refine ⟨⟨?_, hd.not_mem_erase⟩, ?_, hl.not_mem_erase⟩
    · by_cases hm : aid ∈ s.liked
      · rw [if_pos hm]
        exact hm
      · rw [if_neg hm]
        simp
    · by_cases hm : aid ∈ s.disliked
      · rw [if_pos hm]
        exact hm
      · rw [if_neg hm]
        simp

/-- C7 witness: liking ID 3 in a state where 3 is disliked moves it to the
liked list and out of the disliked list. -/
theorem rating_state_disjoint_witness :
    3 ∈ (update_rating_state ⟨[], [3]⟩ 3 1).liked ∧
    3 ∉ (update_rating_state ⟨[], [3]⟩ 3 1).disliked :=
  (rating_state_disjoint.2 ⟨[], [3]⟩ 3
    ⟨List.nodup_nil, by simp, by simp⟩ (by decide)).1

/-- C8 counterexample: a call to calculate_user_profile that reaches the ID
coercion rewrites a non-numeric ID cell to -1, so the activity table is not
the same after the call. -/
theorem table_mutation_counterexample :
    calculate_user_profile_table [1] [] (some ⟨[[1]], 1⟩) [⟨none, none⟩]
      ≠ [⟨none, none⟩] := by decide

/-- C8 amended: the engine operations leave the activity table unchanged
except for coercing the ID column in place; in particular, when every ID
cell already holds an integer, both calculate_user_profile and
get_profile_recommendations leave the table exactly as it was. -/
theorem table_preserved_when_ids_numeric :
    (∀ liked disliked m df, (∀ r ∈ df, ∃ v, r.id = some v) →
       calculate_user_profile_table liked disliked m df = df) ∧
    (∀ up fm df, (∀ r ∈ df, ∃ v, r.id = some v) →
       get_profile_recommendations_table up fm df = df) := by
  constructor
  · intro liked disliked m df h
    rcases m with _ | M
    · rfl
    · show (if M.ncols = 0 ∨ df = [] then df
        else if liked = [] then df else coerceIds df) = df
      split_ifs <;> first | rfl | exact coerceIds_eq_self df h
  · intro up fm df h
    rcases up with _ | p
    · rfl
    rcases fm with _ | M
    · rfl
    show (if M.nrows = 0 ∨ M.ncols = 0 ∨ df = [] then df
      else coerceIds df) = df
    split_ifs <;> first | rfl | exact coerceIds_eq_self df h

/-- C8 amended witness: with integer IDs the table is unchanged. -/
theorem table_preserved_witness :
    calculate_user_profile_table [1] [] (some ⟨[[1]], 1⟩) [⟨some 2, none⟩]
      = [⟨some 2, none⟩] :=
  table_preserved_when_ids_numeric.1 [1] [] (some ⟨[[1]], 1⟩)
    [⟨some 2, none⟩]
    (by
      intro r hr
      rw [List.mem_singleton] at hr
      subst hr
      exact ⟨2, rfl⟩)

/-- C10: get_liked_prices never returns an empty list (it degrades to none
instead), and liking only free activities with include_free = false yields
none. -/
theorem liked_prices_no_empty :
    (∀ liked df b, get_liked_prices liked df b ≠ some []) ∧
    (∀ liked df,
       (∀ r ∈ df, likedRowMatch liked r = true → r.preis = some 0) →
       get_liked_prices liked df false = none) := by
  constructor
  · intro liked df b
    unfold get_liked_prices
    dsimp only
    split_ifs <;> simp_all
  · intro liked df h
    unfold get_liked_prices
    dsimp only
    have hz :
        (((df.filter (likedRowMatch liked)).map fun r => r.preis).filterMap
          id).filter (fun q => decide (0 < q)) = [] :=
      zero_prices_filter _ fun r hr =>
        h r (List.mem_filter.mp hr).1 (List.mem_filter.mp hr).2
    split_ifs <;> simp_all

lemma sortScoresDesc_ne_nil_of_eq_cons {scores : List (String × Nat)}
    {p : String × Nat} {rest : List (String × Nat)}
    (hsort : sortScoresDesc scores = p :: rest) : scores ≠ [] := by
  intro he
  subst he
  simp [sortScoresDesc, sortByKeyDesc] at hsort

lemma generate_profile_label_sorted_single (scores : List (String × Nat))
    (a : String) (k : Nat) (hsort : sortScoresDesc scores = [(a, k)]) :
    generate_profile_label (some scores) = finishLabel (a ++ "-Fan") := by
  have hs : scores ≠ [] := sortScoresDesc_ne_nil_of_eq_cons hsort
  simp only [generate_profile_label]
  rw [if_neg hs, hsort]
  rfl

lemma generate_profile_label_sorted_pair (scores : List (String × Nat))
    (a1 a2 : String) (s1 s2 : Nat) (rest : List (String × Nat))
    (hsort : sortScoresDesc scores = (a1, s1) :: (a2, s2) :: rest) :
    generate_profile_label (some scores) =
      if pySetPair a1 a2 "Sport" "Action" then
        finishLabel "Sport & Action Typ"
      else if pySetPair a1 a2 "Natur" "Wandern" then
        finishLabel "Naturfreund"
      else if pySetPair a1 a2 "Genuss" "Shopping" then
        finishLabel "Genuss & Shopping Typ"
      else if (s2 : ℚ) * 1.5 < (s1 : ℚ) then
        finishLabel (a1 ++ "-Fan (Interesse: " ++ a2 ++ ")")
      else
        finishLabel (a1 ++ " & " ++ a2 ++ " Typ") := by
  have hs : scores ≠ [] := sortScoresDesc_ne_nil_of_eq_cons hsort
  simp only [generate_profile_label]
  rw [if_neg hs, hsort]
  rfl

/-- C9: the profile label is the single-category fan label for one
category; the bespoke name for a special-cased top pair; the fan label with
a secondary interest when the top count strictly exceeds 1.5 times the
second; the combined type label otherwise; and no label without data. -/
theorem profile_label_cases :
    generate_profile_label none = none ∧
    generate_profile_label (some []) = none ∧
    (∀ scores a k, sortScoresDesc scores = [(a, k)] →
       generate_profile_label (some scores) = finishLabel (a ++ "-Fan")) ∧
    (∀ scores a1 s1 a2 s2 rest,
       sortScoresDesc scores = (a1, s1) :: (a2, s2) :: rest →
       pySetPair a1 a2 "Sport" "Action" →
       generate_profile_label (some scores)
         = finishLabel "Sport & Action Typ") ∧
    (∀ scores a1 s1 a2 s2 rest,
       sortScoresDesc scores = (a1, s1) :: (a2, s2) :: rest →
       ¬ pySetPair a1 a2 "Sport" "Action" →
       pySetPair a1 a2 "Natur" "Wandern" →
       generate_profile_label (some scores) = finishLabel "Naturfreund") ∧
    (∀ scores a1 s1 a2 s2 rest,
       sortScoresDesc scores = (a1, s1) :: (a2, s2) :: rest →
       ¬ pySetPair a1 a2 "Sport" "Action" →
       ¬ pySetPair a1 a2 "Natur" "Wandern" →
       pySetPair a1 a2 "Genuss" "Shopping" →
       generate_profile_label (some scores)
         = finishLabel "Genuss & Shopping Typ") ∧
    (∀ scores a1 s1 a2 s2 rest,
       sortScoresDesc scores = (a1, s1) :: (a2, s2) :: rest →
       ¬ pySetPair a1 a2 "Sport" "Action" →
       ¬ pySetPair a1 a2 "Natur" "Wandern" →
       ¬ pySetPair a1 a2 "Genuss" "Shopping" →
       (s2 : ℚ) * 1.5 < (s1 : ℚ) →
       generate_profile_label (some scores)
         = finishLabel (a1 ++ "-Fan (Interesse: " ++ a2 ++ ")")) ∧
    (∀ scores a1 s1 a2 s2 rest,
       sortScoresDesc scores = (a1, s1) :: (a2, s2) :: rest →
       ¬ pySetPair a1 a2 "Sport" "Action" →
       ¬ pySetPair a1 a2 "Natur" "Wandern" →
       ¬ pySetPair a1 a2 "Genuss" "Shopping" →
       ¬ ((s2 : ℚ) * 1.5 < (s1 : ℚ)) →
       generate_profile_label (some scores)
         = finishLabel (a1 ++ " & " ++ a2 ++ " Typ")) := by
  refine ⟨rfl, rfl, ?_, ?_, ?_, ?_, ?_, ?_⟩
  · exact generate_profile_label_sorted_single
  · intro scores a1 s1 a2 s2 rest hsort hp
    rw [generate_profile_label_sorted_pair scores a1 a2 s1 s2 rest hsort,
      if_pos hp]
  · intro scores a1 s1 a2 s2 rest hsort hn1 hp
    rw [generate_profile_label_sorted_pair scores a1 a2 s1 s2 rest hsort,
      if_neg hn1, if_pos hp]
  · intro scores a1 s1 a2 s2 rest hsort hn1 hn2 hp
    rw [generate_profile_label_sorted_pair scores a1 a2 s1 s2 rest hsort,
      if_neg hn1, if_neg hn2, if_pos hp]
  · intro scores a1 s1 a2 s2 rest hsort hn1 hn2 hn3 hr
    rw [generate_profile_label_sorted_pair scores a1 a2 s1 s2 rest hsort,
      if_neg hn1, if_neg hn2, if_neg hn3, if_pos hr]
  · intro scores a1 s1 a2 s2 rest hsort hn1 hn2 hn3 hr
    rw [generate_profile_label_sorted_pair scores a1 a2 s1 s2 rest hsort,
      if_neg hn1, if_neg hn2, if_neg hn3, if_neg hr]

/-- C9 witness: five Natur likes against one Kultur like exceed the 1.5
ratio and give the fan label with a secondary interest. -/
theorem profile_label_cases_witness :
    generate_profile_label (some [("Kultur", 1), ("Natur", 5)])
      = finishLabel ("Natur" ++ "-Fan (Interesse: " ++ "Kultur" ++ ")") :=
  profile_label_cases.2.2.2.2.2.2.1 [("Kultur", 1), ("Natur", 5)]
    "Natur" 5 "Kultur" 1 []
    (by norm_num [sortScoresDesc, sortByKeyDesc, insertByKeyDesc])
    (by decide) (by decide) (by decide) (by norm_num)

/-- C10 witness: a single liked activity with price 0 and
include_free = false yields none. -/
theorem liked_prices_no_empty_witness :
    get_liked_prices [1] [⟨some 1, some 0⟩] false = none :=
  liked_prices_no_empty.2 [1] [⟨some 1, some 0⟩]
    (by
      intro r hr
      rw [List.mem_singleton] at hr
      subst hr
      intro _
      rfl)

end HSG
